import Mathlib

/-!
Verification of the lost-and-found announcement application
(`final_code_lost.py`) against its natural-language specification.

The program is a single-file CRUD application over a CSV table of
announcement records.  We shallowly embed its data model and operations:

* a `Record` is one in-memory row of the pandas DataFrame produced by
  `load_data`; cells that pandas may hold as NaN (missing) are modelled
  as `Option String` (`none` = NaN), cells that the code normalizes with
  `fillna` are plain `String`, and `Resolved` is `Bool`;
* a `CsvRow` is one stored row of the CSV file: every cell is text;
* `save_data` / `load_data` model the row-level content of
  `DataFrame.to_csv` / `pd.read_csv(dtype=str)` together with the
  normalization the code performs after reading.  `to_csv` writes a
  missing (NaN) cell as the empty field, and `read_csv` turns any field
  whose text is one of pandas' default NA tokens (the empty string
  among them) back into NaN.  CSV quoting is transparent (quoted on
  write, unquoted on read), so cells are modelled by their contents.
  The file-absent branch of `load_data` (empty table) and the
  missing-column repair loop are not needed by any claim and are not
  modelled; rows are always full 13-column rows, as `save_data` writes
  them.
-/

namespace LostFound

/-- The default NA tokens of `pd.read_csv`: a field whose exact text is one
of these is read as NaN (missing).  `save_data` itself only ever produces
the empty string for a missing cell. -/
def pandasNAValues : List String :=
  ["", "#N/A", "#N/A N/A", "#NA", "-1.#IND", "-1.#QNAN", "-NaN", "-nan",
   "1.#IND", "1.#QNAN", "<NA>", "N/A", "NA", "NULL", "NaN", "None",
   "n/a", "nan", "null"]

/-- Reading one CSV cell with `pd.read_csv(dtype=str)`: NA tokens become
NaN (`none`), anything else is kept as a string. -/
def readCell (s : String) : Option String :=
  if s ∈ pandasNAValues then none else some s

/-- Writing one string-or-NaN cell with `DataFrame.to_csv`: NaN becomes the
empty field, a string is written as is (quoting is transparent). -/
def writeCell : Option String → String
  | none => ""
  | some s => s

/-- Writing a boolean cell with `DataFrame.to_csv`: Python `str(True)` /
`str(False)`. -/
def writeBool (b : Bool) : String :=
  if b then "True" else "False"

/-- One in-memory announcement row, as `load_data` produces it and as the
rest of the program manipulates it.  `ID`, `DeletePassword`, `EventDate`
and `Date` receive `fillna("")` in `load_data` and are therefore always
strings; the remaining text columns receive no `fillna` and may be NaN
(`none`).  The field `Type'` models the DataFrame column `"Type"`
(`Type` is reserved in Lean). -/
structure Record where
  ID : String
  Type' : Option String
  Category : Option String
  City : Option String
  Description : Option String
  Image1 : Option String
  Image2 : Option String
  Image3 : Option String
  Phone : Option String
  Date : String
  EventDate : String
  DeletePassword : String
  Resolved : Bool
deriving Repr, DecidableEq

/-- One stored CSV row: all thirteen cells as text, in the fixed column
order `ID, Type, Category, City, Description, Image1, Image2, Image3,
Phone, Date, EventDate, DeletePassword, Resolved`. -/
structure CsvRow where
  ID : String
  Type' : String
  Category : String
  City : String
  Description : String
  Image1 : String
  Image2 : String
  Image3 : String
  Phone : String
  Date : String
  EventDate : String
  DeletePassword : String
  Resolved : String
deriving Repr, DecidableEq

/-- Python `str.lower()`, character-wise (all values the program lower-cases
are ASCII). -/
def pyLower (s : String) : String :=
  ⟨s.data.map Char.toLower⟩

/-- Python `str.strip()`: remove leading and trailing whitespace. -/
def pyStrip (s : String) : String :=
  ⟨((s.data.dropWhile Char.isWhitespace).reverse.dropWhile Char.isWhitespace).reverse⟩

/-- The `Resolved` normalization of `load_data`:
`fillna("False").astype(str).str.lower().map({"true": True, "false": False,
"1": True, "0": False}).fillna(False).astype(bool)` — i.e. the lower-cased
cell maps to `true` exactly for `"true"` and `"1"`, and everything else
(including unmapped strings, which the final `fillna(False)` catches)
becomes `false`. -/
def resolvedOfCell (o : Option String) : Bool :=
  let s := pyLower (o.getD "False")
  s = "true" ∨ s = "1"

/-- Row form of `load_data`: read each cell (NA tokens → NaN), then apply the
normalizations of `load_data`: `fillna("")` on `ID`, `DeletePassword`,
`EventDate` and `Date`, and the boolean coercion on `Resolved`. -/
def loadRow (c : CsvRow) : Record where
  ID := (readCell c.ID).getD ""
  Type' := readCell c.Type'
  Category := readCell c.Category
  City := readCell c.City
  Description := readCell c.Description
  Image1 := readCell c.Image1
  Image2 := readCell c.Image2
  Image3 := readCell c.Image3
  Phone := readCell c.Phone
  Date := (readCell c.Date).getD ""
  EventDate := (readCell c.EventDate).getD ""
  DeletePassword := (readCell c.DeletePassword).getD ""
  Resolved := resolvedOfCell (readCell c.Resolved)

/-- Row form of `save_data`: `df.to_csv(DATA_FILE, index=False)` writes every
cell as text; string cells verbatim, NaN as the empty field, booleans as
`"True"`/`"False"`. -/
def saveRow (r : Record) : CsvRow where
  ID := r.ID
  Type' := writeCell r.Type'
  Category := writeCell r.Category
  City := writeCell r.City
  Description := writeCell r.Description
  Image1 := writeCell r.Image1
  Image2 := writeCell r.Image2
  Image3 := writeCell r.Image3
  Phone := writeCell r.Phone
  Date := r.Date
  EventDate := r.EventDate
  DeletePassword := r.DeletePassword
  Resolved := writeBool r.Resolved

/-- The table `load_data` produces from a stored file (modulo the file-absent branch, which
yields the empty table). -/
def load_data (f : List CsvRow) : List Record :=
  f.map loadRow

/-- The file contents `save_data df` writes via `df.to_csv`. -/
def save_data (df : List Record) : List CsvRow :=
  df.map saveRow

/-!
### ID generation

`new_id` computation of the Submit Announcement block:

```
if df.empty: new_id = "1"
else:
    numeric_ids = pd.to_numeric(df["ID"], errors="coerce").dropna().astype(int)
    if not numeric_ids.empty: new_id = str(int(numeric_ids.max()) + 1)
    else: new_id = str(len(df) + 1)
```

`pd.to_numeric(·, errors="coerce")` parses each ID string as a decimal
number, coercing failures to NaN (which `dropna` removes); `astype(int)`
truncates each value toward zero; `str` renders the decimal numeral.
We model the numeric parse on sign + digits + optional fractional part
(scientific notation, infinity tokens and surrounding whitespace — none
of which the application ever writes into the ID column — are treated as
non-numeric).
-/

/-- Value of a list of decimal digit characters, most significant first
(Python `int` on a digit string). -/
def digitsVal (l : List Char) : ℕ :=
  l.foldl (fun a c => 10 * a + (c.toNat - 48)) 0

/-- Split a character list at the first dot, if any. -/
def splitAtDot : List Char → List Char × Option (List Char)
  | [] => ([], none)
  | c :: rest =>
    if c = '.' then ([], some rest)
    else
      let p := splitAtDot rest
      (c :: p.1, p.2)

/-- Strip an optional leading sign, returning the sign factor and the
remaining characters. -/
def pySign (l : List Char) : ℤ × List Char :=
  match l with
  | [] => (1, [])
  | c :: r => if c = '-' then (-1, r) else if c = '+' then (1, r) else (1, c :: r)

/-- Model of `pd.to_numeric(s, errors="coerce")` on one cell: an optional sign,
then digits with at most one dot and at least one digit, give the decimal
value; anything else is NaN (`none`).  A second dot makes the fractional
part contain a non-digit, so it is rejected by the digit check. -/
def pyToNumeric (s : String) : Option ℚ :=
  let p := pySign s.data
  match splitAtDot p.2 with
  | (ip, none) =>
    if ip ≠ [] ∧ ip.all Char.isDigit then
      some ((p.1 * (digitsVal ip : ℤ) : ℤ) : ℚ)
    else none
  | (ip, some fp) =>
    if (ip ≠ [] ∨ fp ≠ []) ∧ ip.all Char.isDigit ∧ fp.all Char.isDigit then
      some (Rat.divInt (p.1 * ((digitsVal ip : ℤ) * 10 ^ fp.length + (digitsVal fp : ℤ)))
        (10 ^ fp.length))
    else none

/-- Python `int()` / numpy `astype(int)` on a finite value: truncation
toward zero, written with Euclidean division of nonnegative numerators
(the denominator of a `Rat` is positive). -/
def pyInt (q : ℚ) : ℤ :=
  if 0 ≤ q.num then q.num / (q.den : ℤ) else -((-q.num) / (q.den : ℤ))

/-- Decimal digits, least significant first, by structural recursion on a
fuel bound (any fuel at least `n` gives the digits of `n`; empty for 0). -/
def natToRevDigitsAux : ℕ → ℕ → List Char
  | 0, _ => []
  | fuel + 1, n =>
    if n = 0 then []
    else Char.ofNat (48 + n % 10) :: natToRevDigitsAux fuel (n / 10)

/-- Decimal digits of `n`, least significant first (empty for 0). -/
def natToRevDigits (n : ℕ) : List Char :=
  natToRevDigitsAux n n

/-- Python `str` on a natural number: its decimal numeral. -/
def natDecString (n : ℕ) : String :=
  if n = 0 then "0" else ⟨(natToRevDigits n).reverse⟩

/-- Python `str` on an integer: sign and decimal numeral. -/
def intDecString (i : ℤ) : String :=
  if i < 0 then "-" ++ natDecString i.natAbs else natDecString i.natAbs

/-- The ID assigned to a new announcement (Submit Announcement block,
"safe ID generation").  The `try/except` around the pandas expression is
modelled by its `try` path: with `errors="coerce"` the conversion does
not raise on decimal inputs. -/
def newId (df : List Record) : String :=
  if df.isEmpty then "1"
  else
    let numeric_ids : List ℤ := (df.filterMap (fun r => pyToNumeric r.ID)).map pyInt
    match numeric_ids with
    | [] => intDecString ((df.length : ℤ) + 1)
    | x :: xs => intDecString (xs.foldl max x + 1)

/-!
### Submission

The Submit Announcement handler.  `save_images` writes each uploaded file
under a generated name and returns the written paths padded to three
entries with empty strings; the file-system write and the generated names
are abstracted: the input of the model is the list of generated paths,
one per uploaded file.
-/

/-- Model of `save_images`: takes the (at most first three) per-file paths and pads
the result to exactly three entries with `""`. -/
def save_images (files : List String) : String × String × String :=
  match files with
  | [] => ("", "", "")
  | [a] => (a, "", "")
  | [a, b] => (a, b, "")
  | a :: b :: c :: _ => (a, b, c)

/-- The inputs of one press of the "Submit Announcement" button.
`post_type`, `category` and `city` come from the fixed option lists;
`event_date` and `today` are the `"%Y-%m-%d"`-formatted event date and
submission date; `images` is the list of generated image paths, one per
uploaded file (see `save_images`). -/
structure SubmitInput where
  post_type : String
  category : String
  city : String
  description : String
  event_date : String
  phone : String
  delete_password : String
  images : List String
  today : String
deriving Repr, DecidableEq

/-- Outcome of a submission attempt: the resulting in-memory table, the
`st.error` message if validation failed, whether `save_images` wrote any
files, and whether `save_data` persisted the table. -/
structure SubmitOutcome where
  table : List Record
  errorMsg : Option String
  imagesSaved : Bool
  saved : Bool
deriving Repr, DecidableEq

/-- The new record built on a successful submission (the `new_post`
dictionary). -/
def newPost (inp : SubmitInput) (df : List Record) : Record where
  ID := newId df
  Type' := some (pyLower inp.post_type)
  Category := some inp.category
  City := some inp.city
  Description := some inp.description
  Image1 := some (save_images inp.images).1
  Image2 := some (save_images inp.images).2.1
  Image3 := some (save_images inp.images).2.2
  Phone := some inp.phone
  Date := inp.today
  EventDate := inp.event_date
  DeletePassword := pyStrip inp.delete_password
  Resolved := false

/-- The Submit Announcement handler: the three validation checks in
source order (`not description`, `len(phone) != 8 or not phone.isdigit()`,
`not delete_password`), each aborting with its `st.error` message; on
success the images are saved, `new_post` is appended
(`pd.concat([df, ...])`) and the table is persisted. -/
def submitAnnouncement (inp : SubmitInput) (df : List Record) : SubmitOutcome :=
  if inp.description = "" then
    ⟨df, some "Please enter a description.", false, false⟩
  else if ¬(inp.phone.length = 8 ∧ inp.phone.data.all Char.isDigit) then
    ⟨df, some "Phone number must be exactly 8 digits.", false, false⟩
  else if inp.delete_password = "" then
    ⟨df, some "Please set a delete password.", false, false⟩
  else
    ⟨df ++ [newPost inp df], none, true, true⟩

/-!
### Moderation actions (View Announcements block)

Each displayed row `row` carries a password prompt.  Python's
`str.strip()` is modelled by `pyStrip` (leading and trailing whitespace
removed).  The returned boolean records whether `save_data`
was called (i.e. whether the file was written).
-/

/-- The "Mark as Resolved" action on displayed row `row`: if the stripped
input equals the stripped stored password, set `Resolved` to `True` on
every row whose `ID` equals `row`'s
(`df.loc[df["ID"].astype(str) == str(row.get("ID")), "Resolved"] = True`)
and persist; otherwise report "Incorrect password." and change nothing. -/
def resolveAction (pw : String) (row : Record) (df : List Record) :
    List Record × Bool :=
  if pyStrip pw = pyStrip row.DeletePassword then
    (df.map (fun r => if r.ID = row.ID then { r with Resolved := true } else r), true)
  else
    (df, false)

/-- The "Delete Post" action on displayed row `row`: if the stripped input
equals the stripped stored password **and** the stripped input is
non-empty, drop every row whose `ID` equals `row`'s
(`df = df[df["ID"].astype(str) != str(row.get("ID"))]`) and persist;
otherwise report "Incorrect password." and change nothing. -/
def deleteAction (pw : String) (row : Record) (df : List Record) :
    List Record × Bool :=
  if pyStrip pw = pyStrip row.DeletePassword ∧ pyStrip pw ≠ "" then
    (df.filter (fun r => decide (r.ID ≠ row.ID)), true)
  else
    (df, false)

/-!
### Browsing filters (View Announcements block)
-/

/-- Model of `str(selected_month).zfill(2)`: the month number zero-padded to two
characters. -/
def zfill2 (m : ℕ) : String :=
  if m < 10 then "0" ++ natDecString m else natDecString m

/-- The three states of the "Filter by:" radio button together with their
inputs: no date filter, a specific `"%Y-%m-%d"` date, or a month (1–12)
and a year string taken from the first four characters of stored event
dates. -/
inductive DateFilter where
  | noFilter : DateFilter
  | specificDate (d : String) : DateFilter
  | monthYear (month : ℕ) (year : String) : DateFilter
deriving Repr, DecidableEq

/-- The filter pipeline of the View Announcements page, applied to the
loaded table in source order: Type (compared against the lower-cased
choice), City, Category — each skipped on "All" —, the `Resolved == False`
restriction unless "Include resolved announcements" is checked, then the
date filter.  A pandas equality comparison with a NaN cell is `False`,
which the `Option String` equalities reproduce.  The month/year branch
runs only when `selected_month and selected_year` is truthy, i.e. the
month is non-zero and the year string non-empty; it compares
`str(d)[:7]` with `f"{year}-{str(month).zfill(2)}"`. -/
def applyFilters (filter_type filter_city filter_category : String)
    (show_resolved : Bool) (dateFilter : DateFilter)
    (df : List Record) : List Record :=
  let f1 := if filter_type ≠ "All" then
      df.filter (fun r => decide (r.Type' = some (pyLower filter_type))) else df
  let f2 := if filter_city ≠ "All" then
      f1.filter (fun r => decide (r.City = some filter_city)) else f1
  let f3 := if filter_category ≠ "All" then
      f2.filter (fun r => decide (r.Category = some filter_category)) else f2
  let f4 := if !show_resolved then
      f3.filter (fun r => decide (r.Resolved = false)) else f3
  match dateFilter with
  | .noFilter => f4
  | .specificDate d => f4.filter (fun r => decide (r.EventDate = d))
  | .monthYear month year =>
    if month ≠ 0 ∧ year ≠ "" then
      f4.filter (fun r => decide (r.EventDate.take 7 = year ++ "-" ++ zfill2 month))
    else f4

/-!
### Record lifecycle

One user interaction step on the stored table: a submission attempt, a
resolve attempt, or a delete attempt (each of the latter two on some
displayed row with some typed password).
-/

/-- One interaction step on the table. -/
inductive Step : List Record → List Record → Prop where
  | submit (inp : SubmitInput) (df : List Record) :
      Step df (submitAnnouncement inp df).table
  | resolve (pw : String) (row : Record) (df : List Record) :
      Step df (resolveAction pw row df).1
  | delete (pw : String) (row : Record) (df : List Record) :
      Step df (deleteAction pw row df).1

/-!
## Helper lemmas: store round-trip
-/

theorem readCell_writeCell_readCell (s : String) :
    readCell (writeCell (readCell s)) = readCell s := by
  by_cases h : s ∈ pandasNAValues
  · simp only [readCell, if_pos h, writeCell]
    decide
  · simp only [readCell, if_neg h, writeCell]

theorem readCell_getD_roundtrip (s : String) :
    (readCell ((readCell s).getD "")).getD "" = (readCell s).getD "" := by
  by_cases h : s ∈ pandasNAValues
  · simp only [readCell, if_pos h, Option.getD_none]
    decide
  · simp only [readCell, if_neg h, Option.getD_some]

theorem resolvedOfCell_readCell_writeBool (b : Bool) :
    resolvedOfCell (readCell (writeBool b)) = b := by
  cases b <;> decide

theorem loadRow_saveRow_loadRow (c : CsvRow) :
    loadRow (saveRow (loadRow c)) = loadRow c := by
  simp only [loadRow, saveRow, readCell_writeCell_readCell, readCell_getD_roundtrip,
    resolvedOfCell_readCell_writeBool]

/-- A record whose `Image1`–`Image3` cells are the empty string, exactly as
a fresh submission with no uploaded pictures produces them. -/
def c2Record : Record where
  ID := "1"
  Type' := some "lost"
  Category := some "Pets"
  City := some "Salmiya"
  Description := some "black cat"
  Image1 := some ""
  Image2 := some ""
  Image3 := some ""
  Phone := some "12345678"
  Date := "2024-06-01"
  EventDate := "2024-05-17"
  DeletePassword := "pw"
  Resolved := false

/-- Claim C2, as stated, is false: for the table holding `c2Record` (whose
`Image1`–`Image3` fields are the empty string), saving with `save_data` and
loading with `load_data` does not reproduce the record — `to_csv` writes the
empty strings as empty fields and `read_csv` reads empty fields back as
missing (NaN), not as empty strings. -/
theorem C2_counterexample :
    load_data (save_data [c2Record]) ≠ [c2Record] := by
  decide

/-- Claim C2 (amended): saving and re-loading is the identity on tables in
loaded form — for every stored file, load → save → load produces records
logically identical to load, every field with the same value and `Resolved`
as a boolean.  (On arbitrary in-memory tables save-then-load is not the
identity: empty-string `Image1`–`Image3` cells come back as missing values,
see `C2_counterexample`.) -/
theorem C2_load_save_load (f : List CsvRow) :
    load_data (save_data (load_data f)) = load_data f := by
  induction f with
  | nil => rfl
  | cons c t ih =>
    simpa only [load_data, save_data, List.map_cons, List.cons.injEq,
      loadRow_saveRow_loadRow, true_and] using ih

/-!
## Moderation claims
-/

theorem resolveAction_match (pw : String) (row : Record) (df : List Record)
    (h : pyStrip pw = pyStrip row.DeletePassword) :
    (resolveAction pw row df).2 = true ∧
    ∀ r ∈ (resolveAction pw row df).1, r.ID = row.ID → r.Resolved = true := by
  refine ⟨by simp only [resolveAction, if_pos h], ?_⟩
  intro r hr hid
  simp only [resolveAction, if_pos h, List.mem_map] at hr
  obtain ⟨a, _, rfl⟩ := hr
  by_cases ha : a.ID = row.ID
  · simp only [if_pos ha]
  · simp only [if_neg ha] at hid ⊢
    exact absurd hid ha

theorem deleteAction_no_mutation (pw : String) (row : Record) (df : List Record)
    (h : ¬(pyStrip pw = pyStrip row.DeletePassword ∧ pyStrip pw ≠ "")) :
    deleteAction pw row df = (df, false) := by
  simp only [deleteAction, if_neg h]

/-- A displayed record whose stored `DeletePassword` is the empty string —
reachable by submitting a whitespace-only password, which passes the
non-empty check and is stripped before storage. -/
def c1Record : Record where
  ID := "1"
  Type' := some "lost"
  Category := some "Bags"
  City := some "Hawally"
  Description := some "backpack"
  Image1 := none
  Image2 := none
  Image3 := none
  Phone := some "87654321"
  Date := "2024-06-01"
  EventDate := "2024-05-17"
  DeletePassword := ""
  Resolved := false

/-- Claim C1, as stated, is false for the delete action: for `c1Record`
the supplied password `""` (stripped) equals the stored `DeletePassword`
(stripped), yet the delete action leaves the table unchanged and does not
persist — the code additionally requires the stripped password to be
non-empty. -/
theorem C1_counterexample :
    pyStrip "" = pyStrip c1Record.DeletePassword ∧
    deleteAction "" c1Record [c1Record] = ([c1Record], false) := by
  decide

/-- Claim C1 (amended): when the supplied password (stripped) differs from
the stored `DeletePassword` (stripped), neither moderation action mutates
the table or writes the file; when they are equal, the resolve action sets
`Resolved` to true on the targeted ID and persists, and the delete action —
provided additionally that the stripped password is non-empty — removes
every record with that ID, keeps all others, and persists. -/
theorem C1_moderation_password_gate (pw : String) (row : Record) (df : List Record) :
    (pyStrip pw ≠ pyStrip row.DeletePassword →
      resolveAction pw row df = (df, false) ∧ deleteAction pw row df = (df, false)) ∧
    (pyStrip pw = pyStrip row.DeletePassword →
      (resolveAction pw row df).2 = true ∧
      (∀ r ∈ (resolveAction pw row df).1, r.ID = row.ID → r.Resolved = true) ∧
      (pyStrip pw ≠ "" →
        (deleteAction pw row df).2 = true ∧
        ∀ r, (r ∈ (deleteAction pw row df).1 ↔ r ∈ df ∧ r.ID ≠ row.ID))) := by
  constructor
  · intro h
    refine ⟨by simp only [resolveAction, if_neg h], ?_⟩
    exact deleteAction_no_mutation pw row df (fun hc => h hc.1)
  · intro h
    refine ⟨(resolveAction_match pw row df h).1, (resolveAction_match pw row df h).2, ?_⟩
    intro hne
    have hc : pyStrip pw = pyStrip row.DeletePassword ∧ pyStrip pw ≠ "" := ⟨h, hne⟩
    refine ⟨by simp only [deleteAction, if_pos hc], ?_⟩
    intro r
    simp only [deleteAction, if_pos hc, List.mem_filter, decide_eq_true_eq]

/-- Claim C9: the resolve check does not require a non-empty password — if
the stored `DeletePassword` strips to the empty string, resolving with the
empty input succeeds, persists, and marks the targeted ID resolved — while
the delete action with any input that strips to the empty string always
fails and leaves the table untouched. -/
theorem C9_empty_password_asymmetry (row : Record) (df : List Record) (pw : String) :
    (pyStrip row.DeletePassword = "" →
      (resolveAction "" row df).2 = true ∧
      ∀ r ∈ (resolveAction "" row df).1, r.ID = row.ID → r.Resolved = true) ∧
    (pyStrip pw = "" → deleteAction pw row df = (df, false)) := by
  constructor
  · intro h
    have hm : pyStrip "" = pyStrip row.DeletePassword := by
      rw [h]
      decide
    exact resolveAction_match "" row df hm
  · intro h
    exact deleteAction_no_mutation pw row df (fun hc => hc.2 h)

/-- A displayed record with an ordinary non-empty stored password. -/
def c1wRecord : Record :=
  { c1Record with ID := "2", DeletePassword := "pw" }

/-- Witness for `C1_moderation_password_gate` at concrete inputs: a wrong
password mutates nothing for either action; the matching password `" pw "`
(stripping to the stored `"pw"`) makes resolve and delete persist. -/
theorem C1_moderation_password_gate_witness :
    (resolveAction "bad" c1wRecord [c1wRecord] = ([c1wRecord], false) ∧
      deleteAction "bad" c1wRecord [c1wRecord] = ([c1wRecord], false)) ∧
    (resolveAction " pw " c1wRecord [c1wRecord]).2 = true ∧
    (deleteAction " pw " c1wRecord [c1wRecord]).2 = true :=
  ⟨(C1_moderation_password_gate "bad" c1wRecord [c1wRecord]).1 (by decide),
    ((C1_moderation_password_gate " pw " c1wRecord [c1wRecord]).2 (by decide)).1,
    (((C1_moderation_password_gate " pw " c1wRecord [c1wRecord]).2 (by decide)).2.2
      (by decide)).1⟩

/-- A record submitted with a whitespace-only delete password: the stored
`DeletePassword` strips to the empty string. -/
def c9Record : Record :=
  { c1Record with ID := "3", DeletePassword := " " }

/-- Witness for `C9_empty_password_asymmetry` at concrete inputs: on
`c9Record` the empty password resolves successfully but can never
delete. -/
theorem C9_empty_password_asymmetry_witness :
    (resolveAction "" c9Record [c9Record]).2 = true ∧
    deleteAction "" c9Record [c9Record] = ([c9Record], false) :=
  ⟨((C9_empty_password_asymmetry c9Record [c9Record] "").1 (by decide)).1,
    (C9_empty_password_asymmetry c9Record [c9Record] "").2 (by decide)⟩

/-- Claim C10: a successful resolve is frame-preserving — the table keeps
its length and order, every position still holds a record with the same
`ID` and the same value in every field other than `Resolved`; positions
whose `ID` is the targeted one get `Resolved = true`, all other positions
are completely unchanged. -/
theorem C10_resolve_frame (pw : String) (row : Record) (df : List Record)
    (h : pyStrip pw = pyStrip row.DeletePassword) :
    (resolveAction pw row df).1.length = df.length ∧
    ∀ i, i < df.length →
      ∃ r r', df[i]? = some r ∧ (resolveAction pw row df).1[i]? = some r' ∧
        r'.ID = r.ID ∧ r'.Type' = r.Type' ∧ r'.Category = r.Category ∧
        r'.City = r.City ∧ r'.Description = r.Description ∧
        r'.Image1 = r.Image1 ∧ r'.Image2 = r.Image2 ∧ r'.Image3 = r.Image3 ∧
        r'.Phone = r.Phone ∧ r'.Date = r.Date ∧ r'.EventDate = r.EventDate ∧
        r'.DeletePassword = r.DeletePassword ∧
        (r.ID = row.ID → r'.Resolved = true) ∧ (r.ID ≠ row.ID → r' = r) := by
  simp only [resolveAction, if_pos h]
  refine ⟨by simp, ?_⟩
  intro i hi
  refine ⟨df[i], if df[i].ID = row.ID then { df[i] with Resolved := true } else df[i],
    List.getElem?_eq_getElem hi, ?_, ?_⟩
  · rw [List.getElem?_map, List.getElem?_eq_getElem hi]
    rfl
  · by_cases hid : df[i].ID = row.ID
    · simp [hid]
    · simp [hid]

/-- A second record, distinct ID, for frame checks. -/
def c10Record : Record :=
  { c1Record with ID := "7", DeletePassword := "pw", Resolved := false }

/-- Witness for `C10_resolve_frame` at a concrete table: resolving one of
two records keeps the table length. -/
theorem C10_resolve_frame_witness :
    (resolveAction "pw" c10Record [c10Record, c1Record]).1.length = 2 :=
  (C10_resolve_frame "pw" c10Record [c10Record, c1Record] (by decide)).1

/-!
## Validation claims
-/

/-- Claim C4: the submission checks run in source order — description
non-empty, then phone exactly 8 digits, then delete password non-empty —
and the first failing check reports its specific message and aborts with
no partial write: the table is unchanged, no image is saved, and the file
is not written. -/
theorem C4_validation_order (inp : SubmitInput) (df : List Record) :
    (inp.description = "" →
      submitAnnouncement inp df = ⟨df, some "Please enter a description.", false, false⟩) ∧
    (inp.description ≠ "" → ¬(inp.phone.length = 8 ∧ inp.phone.data.all Char.isDigit) →
      submitAnnouncement inp df =
        ⟨df, some "Phone number must be exactly 8 digits.", false, false⟩) ∧
    (inp.description ≠ "" → inp.phone.length = 8 → inp.phone.data.all Char.isDigit →
      inp.delete_password = "" →
      submitAnnouncement inp df = ⟨df, some "Please set a delete password.", false, false⟩) := by
  refine ⟨?_, ?_, ?_⟩
  · intro h
    simp only [submitAnnouncement, if_pos h]
  · intro hd hp
    simp only [submitAnnouncement, if_neg hd, if_pos hp]
  · intro hd hl hdig hpw
    have hp : ¬¬(inp.phone.length = 8 ∧ inp.phone.data.all Char.isDigit) :=
      not_not_intro ⟨hl, hdig⟩
    simp only [submitAnnouncement, if_neg hd, if_neg hp, if_pos hpw]

/-- A fully valid submission input. -/
def goodInput : SubmitInput where
  post_type := "Lost"
  category := "Pets"
  city := "Salmiya"
  description := "black cat"
  event_date := "2024-05-17"
  phone := "12345678"
  delete_password := "pw"
  images := []
  today := "2024-06-01"

/-- Witness for `C4_validation_order`: each of the three checks fires on a
concrete input, with its own message and no mutation. -/
theorem C4_validation_order_witness :
    submitAnnouncement { goodInput with description := "" } [] =
      ⟨[], some "Please enter a description.", false, false⟩ ∧
    submitAnnouncement { goodInput with phone := "123" } [] =
      ⟨[], some "Phone number must be exactly 8 digits.", false, false⟩ ∧
    submitAnnouncement { goodInput with delete_password := "" } [] =
      ⟨[], some "Please set a delete password.", false, false⟩ :=
  ⟨(C4_validation_order { goodInput with description := "" } []).1 rfl,
    (C4_validation_order { goodInput with phone := "123" } []).2.1 (by decide) (by decide),
    (C4_validation_order { goodInput with delete_password := "" } []).2.2 (by decide)
      (by decide) (by decide) rfl⟩

/-- Claim C5: with a non-empty description, a phone of 7 or 9 characters is
rejected with the phone-format message, while an 8-digit phone passes the
phone check and — when the password check also passes — the submission is
accepted and the new record appended. -/
theorem C5_phone_length (inp : SubmitInput) (df : List Record)
    (hd : inp.description ≠ "") :
    ((inp.phone.length = 7 ∨ inp.phone.length = 9) →
      submitAnnouncement inp df =
        ⟨df, some "Phone number must be exactly 8 digits.", false, false⟩) ∧
    (inp.phone.length = 8 → inp.phone.data.all Char.isDigit →
      inp.delete_password ≠ "" →
      (submitAnnouncement inp df).errorMsg = none ∧
      (submitAnnouncement inp df).table = df ++ [newPost inp df]) := by
  constructor
  · intro h
    have hp : ¬(inp.phone.length = 8 ∧ inp.phone.data.all Char.isDigit) := by
      intro hc
      rcases h with h | h <;> omega
    simp only [submitAnnouncement, if_neg hd, if_pos hp]
  · intro hl hdig hpw
    have hp : ¬¬(inp.phone.length = 8 ∧ inp.phone.data.all Char.isDigit) :=
      not_not_intro ⟨hl, hdig⟩
    simp only [submitAnnouncement, if_neg hd, if_neg hp, if_neg hpw]
    simp

/-- Witness for `C5_phone_length`: a 7-character and a 9-character phone
are rejected with the phone message; the 8-digit phone of `goodInput` is
accepted and appends the new record. -/
theorem C5_phone_length_witness :
    submitAnnouncement { goodInput with phone := "1234567" } [] =
      ⟨[], some "Phone number must be exactly 8 digits.", false, false⟩ ∧
    submitAnnouncement { goodInput with phone := "123456789" } [] =
      ⟨[], some "Phone number must be exactly 8 digits.", false, false⟩ ∧
    ((submitAnnouncement goodInput []).errorMsg = none ∧
      (submitAnnouncement goodInput []).table = [] ++ [newPost goodInput []]) :=
  ⟨(C5_phone_length { goodInput with phone := "1234567" } [] (by decide)).1
      (Or.inl (by decide)),
    (C5_phone_length { goodInput with phone := "123456789" } [] (by decide)).1
      (Or.inr (by decide)),
    (C5_phone_length goodInput [] (by decide)).2 (by decide) (by decide) (by decide)⟩

/-!
## Filter claims
-/

/-- Claim C6: the browse filters are conjunctive — with City "Salmiya"
every surviving record has `City == "Salmiya"`, additionally choosing Type
"Lost" restricts further to `Type == "lost"`, and with the default
resolved setting (`show_resolved = false`) no surviving record is
resolved. -/
theorem C6_filters_conjunction (df : List Record) (r : Record) :
    (r ∈ applyFilters "All" "Salmiya" "All" false .noFilter df →
      r.City = some "Salmiya" ∧ r.Resolved = false) ∧
    (r ∈ applyFilters "Lost" "Salmiya" "All" false .noFilter df →
      r.Type' = some "lost" ∧ r.City = some "Salmiya" ∧ r.Resolved = false) := by
  have hlost : pyLower "Lost" = "lost" := by decide
  constructor
  · intro hr
    have e : applyFilters "All" "Salmiya" "All" false .noFilter df =
        (df.filter (fun a => decide (a.City = some "Salmiya"))).filter
          (fun a => decide (a.Resolved = false)) := rfl
    rw [e] at hr
    simp only [List.mem_filter, decide_eq_true_eq] at hr
    exact ⟨hr.1.2, hr.2⟩
  · intro hr
    have e : applyFilters "Lost" "Salmiya" "All" false .noFilter df =
        ((df.filter (fun a => decide (a.Type' = some (pyLower "Lost")))).filter
          (fun a => decide (a.City = some "Salmiya"))).filter
            (fun a => decide (a.Resolved = false)) := rfl
    rw [e, hlost] at hr
    simp only [List.mem_filter, decide_eq_true_eq] at hr
    exact ⟨hr.1.1.2, hr.1.2, hr.2⟩

/-- A record that passes the Salmiya/Lost/unresolved filters. -/
def c6Record : Record where
  ID := "4"
  Type' := some "lost"
  Category := some "Electronics"
  City := some "Salmiya"
  Description := some "phone"
  Image1 := none
  Image2 := none
  Image3 := none
  Phone := some "11112222"
  Date := "2024-06-02"
  EventDate := "2024-05-20"
  DeletePassword := "pw"
  Resolved := false

/-- Witness for `C6_filters_conjunction` on a concrete table. -/
theorem C6_filters_conjunction_witness :
    (c6Record.City = some "Salmiya" ∧ c6Record.Resolved = false) ∧
    (c6Record.Type' = some "lost" ∧ c6Record.City = some "Salmiya" ∧
      c6Record.Resolved = false) :=
  ⟨(C6_filters_conjunction [c6Record] c6Record).1 (by decide),
    (C6_filters_conjunction [c6Record] c6Record).2 (by decide)⟩

/-- Claim C7: with the month/year mode active (non-zero month, non-empty
year), the date filter keeps exactly the records whose `EventDate` starts
with the 7-character `"YYYY-MM"` string built from the year and the
zero-padded month; the other filters are left at their neutral
settings. -/
theorem C7_month_year_filter (df : List Record) (m : ℕ) (y : String)
    (hm : m ≠ 0) (hy : y ≠ "") (r : Record) :
    r ∈ applyFilters "All" "All" "All" true (.monthYear m y) df ↔
      r ∈ df ∧ r.EventDate.take 7 = y ++ "-" ++ zfill2 m := by
  have hmy : m ≠ 0 ∧ y ≠ "" := ⟨hm, hy⟩
  have e : applyFilters "All" "All" "All" true (.monthYear m y) df =
      if m ≠ 0 ∧ y ≠ "" then
        df.filter (fun a => decide (a.EventDate.take 7 = y ++ "-" ++ zfill2 m))
      else df := rfl
  rw [e, if_pos hmy]
  simp only [List.mem_filter, decide_eq_true_eq]

/-- Two records: event dates in May and June 2024. -/
def c7May : Record :=
  { c6Record with ID := "5", EventDate := "2024-05-17" }

/-- June record for the C7 witness. -/
def c7June : Record :=
  { c6Record with ID := "6", EventDate := "2024-06-01" }

/-- Witness for `C7_month_year_filter`: year 2024, month 5 keeps the
record dated 2024-05-17 and drops the one dated 2024-06-01. -/
theorem C7_month_year_filter_witness :
    c7May ∈ applyFilters "All" "All" "All" true (.monthYear 5 "2024") [c7May, c7June] ∧
    c7June ∉ applyFilters "All" "All" "All" true (.monthYear 5 "2024") [c7May, c7June] :=
  ⟨(C7_month_year_filter [c7May, c7June] 5 "2024" (by decide) (by decide) c7May).mpr
      ⟨by simp, by decide⟩,
    fun h =>
      absurd ((C7_month_year_filter [c7May, c7June] 5 "2024" (by decide) (by decide)
        c7June).mp h).2 (by decide)⟩

/-!
## Lifecycle claim
-/

/-- Claim C8: across any single user interaction — a submission attempt, a
resolve attempt or a delete attempt — no record's `Resolved` field ever
goes from true back to false: a resolved record either survives (still
resolved, same ID) or every record with its ID is gone from the table. -/
theorem C8_no_unresolve (df df' : List Record) (h : Step df df')
    (r : Record) (hr : r ∈ df) (hres : r.Resolved = true) :
    (∃ r' ∈ df', r'.ID = r.ID ∧ r'.Resolved = true) ∨
    (∀ r' ∈ df', r'.ID ≠ r.ID) := by
  cases h with
  | submit inp df =>
    unfold submitAnnouncement
    split_ifs with h1 h2 h3 <;>
      exact Or.inl ⟨r, by first | exact hr | exact List.mem_append_left _ hr, rfl, hres⟩
  | resolve pw row df =>
    by_cases hm : pyStrip pw = pyStrip row.DeletePassword
    · simp only [resolveAction, if_pos hm]
      left
      refine ⟨if r.ID = row.ID then { r with Resolved := true } else r,
        List.mem_map_of_mem _ hr, ?_, ?_⟩
      · by_cases hid : r.ID = row.ID <;> simp [hid]
      · by_cases hid : r.ID = row.ID <;> simp [hid, hres]
    · simp only [resolveAction, if_neg hm]
      exact Or.inl ⟨r, hr, rfl, hres⟩
  | delete pw row df =>
    by_cases hm : pyStrip pw = pyStrip row.DeletePassword ∧ pyStrip pw ≠ ""
    · simp only [deleteAction, if_pos hm]
      by_cases hid : r.ID = row.ID
      · right
        intro r' hr'
        have := of_decide_eq_true (List.mem_filter.mp hr').2
        rw [hid]
        exact this
      · left
        exact ⟨r, List.mem_filter.mpr ⟨hr, decide_eq_true hid⟩, rfl, hres⟩
    · simp only [deleteAction, if_neg hm]
      exact Or.inl ⟨r, hr, rfl, hres⟩

/-- An already-resolved record for the lifecycle witness. -/
def c8Record : Record :=
  { c1Record with ID := "9", DeletePassword := "pw", Resolved := true }

/-- Witness for `C8_no_unresolve`: one resolve step on a table holding a
resolved record. -/
theorem C8_no_unresolve_witness :
    (∃ r' ∈ (resolveAction "pw" c8Record [c8Record]).1,
      r'.ID = c8Record.ID ∧ r'.Resolved = true) ∨
    (∀ r' ∈ (resolveAction "pw" c8Record [c8Record]).1, r'.ID ≠ c8Record.ID) :=
  C8_no_unresolve [c8Record] (resolveAction "pw" c8Record [c8Record]).1
    (Step.resolve "pw" c8Record [c8Record]) c8Record (by simp) rfl


/-!
## ID-generation claim
-/

theorem splitAtDot_of_no_dot (l : List Char) (h : ∀ c ∈ l, c ≠ '.') :
    splitAtDot l = (l, none) := by
  induction l with
  | nil => rfl
  | cons c cs ih =>
    have hc : c ≠ '.' := h c (List.mem_cons_self c cs)
    simp only [splitAtDot, if_neg hc, ih (fun x hx => h x (List.mem_cons_of_mem c hx))]

theorem char_digit_toNat (k : ℕ) (hk : k < 10) :
    (Char.ofNat (48 + k)).toNat = 48 + k := by
  interval_cases k <;> decide

theorem char_digit_isDigit (k : ℕ) (hk : k < 10) :
    (Char.ofNat (48 + k)).isDigit = true := by
  interval_cases k <;> decide

theorem isDigit_ne_dot (c : Char) (h : c.isDigit = true) : c ≠ '.' := by
  intro e
  subst e
  exact absurd h (by decide)

theorem isDigit_ne_minus (c : Char) (h : c.isDigit = true) : c ≠ '-' := by
  intro e
  subst e
  exact absurd h (by decide)

theorem isDigit_ne_plus (c : Char) (h : c.isDigit = true) : c ≠ '+' := by
  intro e
  subst e
  exact absurd h (by decide)

theorem natToRevDigitsAux_foldr (fuel : ℕ) : ∀ n, n ≤ fuel →
    (natToRevDigitsAux fuel n).foldr (fun c a => 10 * a + (c.toNat - 48)) 0 = n := by
  induction fuel with
  | zero =>
    intro n hn
    interval_cases n
    rfl
  | succ fuel ih =>
    intro n hn
    by_cases h0 : n = 0
    · subst h0
      rfl
    · have hk : n % 10 < 10 := Nat.mod_lt _ (by decide)
      have hdiv : n / 10 ≤ fuel := by
        have := Nat.div_lt_self (Nat.pos_of_ne_zero h0) (by decide : 1 < 10)
        omega
      simp only [natToRevDigitsAux, if_neg h0, List.foldr_cons, ih (n / 10) hdiv,
        char_digit_toNat (n % 10) hk]
      omega

theorem digitsVal_natToRevDigits_reverse (n : ℕ) :
    digitsVal (natToRevDigits n).reverse = n := by
  unfold digitsVal natToRevDigits
  rw [List.foldl_reverse]
  exact natToRevDigitsAux_foldr n n le_rfl

theorem natToRevDigitsAux_all_digits (fuel : ℕ) :
    ∀ n c, c ∈ natToRevDigitsAux fuel n → c.isDigit = true := by
  induction fuel with
  | zero =>
    intro n c hc
    simp [natToRevDigitsAux] at hc
  | succ fuel ih =>
    intro n c hc
    by_cases h0 : n = 0
    · subst h0
      simp [natToRevDigitsAux] at hc
    · simp only [natToRevDigitsAux, if_neg h0, List.mem_cons] at hc
      rcases hc with rfl | hc
      · exact char_digit_isDigit _ (Nat.mod_lt _ (by decide))
      · exact ih _ _ hc

theorem natToRevDigits_ne_nil (n : ℕ) (h : n ≠ 0) : natToRevDigits n ≠ [] := by
  unfold natToRevDigits
  cases n with
  | zero => exact absurd rfl h
  | succ m =>
    simp only [natToRevDigitsAux, if_neg h]
    exact List.cons_ne_nil _ _

theorem pyToNumeric_of_digits (c : Char) (cs : List Char)
    (hall : ∀ x ∈ c :: cs, x.isDigit = true) (s : String)
    (hdata : s.data = c :: cs) :
    pyToNumeric s = some ((digitsVal (c :: cs) : ℤ) : ℚ) := by
  have hc : c.isDigit = true := hall c (List.mem_cons_self c cs)
  have hsign : pySign s.data = (1, c :: cs) := by
    rw [hdata]
    simp only [pySign, if_neg (isDigit_ne_minus c hc), if_neg (isDigit_ne_plus c hc)]
  have hsplit : splitAtDot (c :: cs) = (c :: cs, none) :=
    splitAtDot_of_no_dot _ (fun x hx => isDigit_ne_dot x (hall x hx))
  have hcond : (c :: cs ≠ [] ∧ (c :: cs).all Char.isDigit) :=
    ⟨List.cons_ne_nil _ _, List.all_eq_true.mpr hall⟩
  simp only [pyToNumeric, hsign, hsplit, if_pos hcond, one_mul]

theorem pyToNumeric_natDecString (n : ℕ) :
    pyToNumeric (natDecString n) = some ((n : ℕ) : ℚ) := by
  by_cases h0 : n = 0
  · subst h0
    have : pyToNumeric (natDecString 0) = some ((0 : ℤ) : ℚ) := by decide
    rw [this]
    norm_num
  · obtain ⟨c, cs, hcons⟩ : ∃ c cs, (natToRevDigits n).reverse = c :: cs := by
      cases hrev : (natToRevDigits n).reverse with
      | nil => exact absurd (List.reverse_eq_nil_iff.mp hrev) (natToRevDigits_ne_nil n h0)
      | cons c cs => exact ⟨c, cs, rfl⟩
    have hdata : (natDecString n).data = c :: cs := by
      unfold natDecString
      rw [if_neg h0]
      exact hcons
    have hall : ∀ x ∈ c :: cs, x.isDigit = true := by
      rw [← hcons]
      intro x hx
      exact natToRevDigitsAux_all_digits n n x (List.mem_reverse.mp hx)
    rw [pyToNumeric_of_digits c cs hall _ hdata, ← hcons,
      digitsVal_natToRevDigits_reverse n]
    norm_cast

theorem pyToNumeric_intDecString (i : ℤ) :
    pyToNumeric (intDecString i) = some ((i : ℤ) : ℚ) := by
  by_cases hneg : i < 0
  · have hna : i.natAbs ≠ 0 := by
      intro hc
      omega
    obtain ⟨c, cs, hcons⟩ : ∃ c cs, (natToRevDigits i.natAbs).reverse = c :: cs := by
      cases hrev : (natToRevDigits i.natAbs).reverse with
      | nil => exact absurd (List.reverse_eq_nil_iff.mp hrev) (natToRevDigits_ne_nil _ hna)
      | cons c cs => exact ⟨c, cs, rfl⟩
    have hall : ∀ x ∈ c :: cs, x.isDigit = true := by
      rw [← hcons]
      intro x hx
      exact natToRevDigitsAux_all_digits _ _ x (List.mem_reverse.mp hx)
    have hc : c.isDigit = true := hall c (List.mem_cons_self c cs)
    have hdata : (intDecString i).data = '-' :: c :: cs := by
      unfold intDecString natDecString
      rw [if_pos hneg, if_neg hna, String.data_append, ← hcons]
      rfl
    have hsign : pySign (intDecString i).data = (-1, c :: cs) := by
      rw [hdata]
      simp [pySign]
    have hsplit : splitAtDot (c :: cs) = (c :: cs, none) :=
      splitAtDot_of_no_dot _ (fun x hx => isDigit_ne_dot x (hall x hx))
    have hcond : (c :: cs ≠ [] ∧ (c :: cs).all Char.isDigit) :=
      ⟨List.cons_ne_nil _ _, List.all_eq_true.mpr hall⟩
    have hval : (digitsVal (c :: cs) : ℤ) = i.natAbs := by
      rw [← hcons, digitsVal_natToRevDigits_reverse]
    simp only [pyToNumeric, hsign, hsplit, if_pos hcond, hval]
    have : (-1 : ℤ) * i.natAbs = i := by omega
    rw [this]
  · unfold intDecString
    rw [if_neg hneg, pyToNumeric_natDecString]
    congr 1
    rw [Int.cast_natAbs]
    exact_mod_cast abs_of_nonneg (le_of_not_lt hneg)

theorem le_foldl_max (xs : List ℤ) : ∀ a : ℤ, a ≤ xs.foldl max a := by
  induction xs with
  | nil => intro a; exact le_refl a
  | cons x xs ih => intro a; exact le_trans (le_max_left a x) (ih (max a x))

theorem mem_le_foldl_max (xs : List ℤ) : ∀ (a x : ℤ), x ∈ xs → x ≤ xs.foldl max a := by
  induction xs with
  | nil =>
    intro a x hx
    cases hx
  | cons y ys ih =>
    intro a x hx
    rcases List.mem_cons.mp hx with rfl | hx
    · exact le_trans (le_max_right a x) (le_foldl_max ys (max a x))
    · exact ih (max a y) x hx

theorem lt_pyInt_add_one (q : ℚ) : q < (pyInt q : ℚ) + 1 := by
  unfold pyInt
  by_cases h : 0 ≤ q.num
  · rw [if_pos h, ← Rat.floor_def]
    exact_mod_cast Int.lt_floor_add_one q
  · rw [if_neg h]
    have hfl : (((-q.num) / (q.den : ℤ) : ℤ) : ℚ) ≤ ((-q.num : ℤ) : ℚ) / ((q.den : ℕ) : ℚ) := by
      rw [← Rat.floor_intCast_div_natCast (-q.num) q.den]
      exact Int.floor_le _
    have hq : ((q.num : ℤ) : ℚ) / ((q.den : ℕ) : ℚ) = q := Rat.num_div_den q
    push_cast at hfl ⊢
    have h2 : -(q.num : ℚ) / (q.den : ℚ) = -((q.num : ℚ) / (q.den : ℚ)) := by ring
    rw [h2, hq] at hfl
    linarith


/-- Claim C3: the ID assigned by a valid submission is `newId df`; it is
numeric and strictly greater, as a number, than every numeric ID already
in the table ("1" when the table is empty), and in particular it differs
from every existing ID string. -/
theorem C3_new_id_monotone (df : List Record) :
    (df = [] → newId df = "1") ∧
    (∃ n : ℚ, pyToNumeric (newId df) = some n ∧
      ∀ r ∈ df, ∀ q : ℚ, pyToNumeric r.ID = some q → q < n) ∧
    (∀ r ∈ df, r.ID ≠ newId df) ∧
    (∀ inp : SubmitInput, (submitAnnouncement inp df).errorMsg = none →
      (submitAnnouncement inp df).table = df ++ [newPost inp df] ∧
      (newPost inp df).ID = newId df) := by
  have main : ∃ n : ℚ, pyToNumeric (newId df) = some n ∧
      ∀ r ∈ df, ∀ q : ℚ, pyToNumeric r.ID = some q → q < n := by
    cases df with
    | nil =>
      refine ⟨1, by decide, ?_⟩
      intro r hr
      cases hr
    | cons d ds =>
      have hemp : ¬((d :: ds).isEmpty = true) := by simp
      unfold newId
      rw [if_neg hemp]
      cases hn : ((d :: ds).filterMap (fun r => pyToNumeric r.ID)).map pyInt with
      | nil =>
        refine ⟨((((d :: ds).length : ℤ) + 1 : ℤ) : ℚ), pyToNumeric_intDecString _, ?_⟩
        intro r hr q hq
        exfalso
        have hmem : q ∈ (d :: ds).filterMap (fun r => pyToNumeric r.ID) :=
          List.mem_filterMap.mpr ⟨r, hr, hq⟩
        rw [List.map_eq_nil_iff.mp hn] at hmem
        cases hmem
      | cons x xs =>
        refine ⟨(((xs.foldl max x + 1 : ℤ) : ℤ) : ℚ), pyToNumeric_intDecString _, ?_⟩
        intro r hr q hq
        have hmem : pyInt q ∈ ((d :: ds).filterMap (fun r => pyToNumeric r.ID)).map pyInt :=
          List.mem_map_of_mem _ (List.mem_filterMap.mpr ⟨r, hr, hq⟩)
        rw [hn] at hmem
        have hle : pyInt q ≤ xs.foldl max x := by
          rcases List.mem_cons.mp hmem with he | hm
          · rw [he]
            exact le_foldl_max xs x
          · exact mem_le_foldl_max xs x _ hm
        have h1 : q < (pyInt q : ℚ) + 1 := lt_pyInt_add_one q
        have h2 : ((pyInt q : ℤ) : ℚ) ≤ ((xs.foldl max x : ℤ) : ℚ) := by
          exact_mod_cast hle
        push_cast
        linarith
  obtain ⟨n, hn1, hn2⟩ := main
  refine ⟨?_, ⟨n, hn1, hn2⟩, ?_, ?_⟩
  · intro h
    subst h
    rfl
  · intro r hr heq
    cases hq : pyToNumeric r.ID with
    | none =>
      rw [heq, hn1] at hq
      cases hq
    | some q =>
      have hlt := hn2 r hr q hq
      rw [heq, hn1] at hq
      injection hq with hq'
      rw [hq'] at hlt
      exact lt_irrefl _ hlt
  · intro inp h
    unfold submitAnnouncement at h ⊢
    split_ifs at h ⊢ with h1 h2 h3
    all_goals exact ⟨rfl, rfl⟩

/-- A record with a numeric ID for the C3 witness. -/
def c3RecNum : Record :=
  { c1Record with ID := "3" }

/-- A record with a non-numeric ID for the C3 witness. -/
def c3RecAbc : Record :=
  { c1Record with ID := "abc" }

/-- Witness for `C3_new_id_monotone`: in a concrete two-record table the
new ID collides with neither existing ID. -/
theorem C3_new_id_monotone_witness :
    "3" ≠ newId [c3RecNum, c3RecAbc] ∧ "abc" ≠ newId [c3RecNum, c3RecAbc] :=
  ⟨(C3_new_id_monotone [c3RecNum, c3RecAbc]).2.2.1 c3RecNum (by simp),
    (C3_new_id_monotone [c3RecNum, c3RecAbc]).2.2.1 c3RecAbc (by simp)⟩

end LostFound
